import Mathlib

/-!
Verification development for the slide-craft orchestration server
(`server.js`).  JavaScript strings are modelled as `List Char`; each HTTP
handler becomes a pure function from the request fields (optional, since a
JSON body may omit any field) and an oracle describing the upstream HTTP
responses to a response record plus the trace of outbound calls attempted.
-/

namespace SlideCraft

/-- JavaScript strings are modelled as lists of characters. -/
abbrev Str := List Char

/-- Coerce a Lean string literal into the model's string type. -/
def str (s : String) : Str := s.toList

/-- JS truthiness for an optional string: `undefined` and `""` are falsy. -/
def strFalsy : Option Str → Bool
  | none => true
  | some [] => true
  | some (_ :: _) => false

/-- JS `a || b` for an optional string `a`: falsy (`undefined` or `""`)
falls through to the default. -/
def jsOr (a : Option Str) (b : Str) : Str :=
  match a with
  | some (c :: cs) => c :: cs
  | _ => b

/-- Characters stripped by JS `String.prototype.trim` (ASCII fragment). -/
def isJsWs (c : Char) : Bool :=
  let n := c.toNat
  n == 32 || n == 9 || n == 10 || n == 13

/-- JS `trim`: drop whitespace from both ends. -/
def jsTrim (s : Str) : Str :=
  ((s.dropWhile isJsWs).reverse.dropWhile isJsWs).reverse

/-- `replace(/\*\*/g, '')`: delete every (non-overlapping, left-to-right)
occurrence of `**`. -/
def removeStars : Str → Str
  | '*' :: '*' :: rest => removeStars rest
  | c :: rest => c :: removeStars rest
  | [] => []

/-- `pat` is an initial segment of `s` (Boolean). -/
def leads : Str → Str → Bool
  | [], _ => true
  | _ :: _, [] => false
  | p :: ps, c :: cs => p == c && leads ps cs

/-- Index of the first occurrence of `pat` in `s`, as found by a JS regex
scan for a literal pattern. -/
def findAt (pat : Str) : Str → Option Nat
  | [] => if leads pat [] then some 0 else none
  | c :: rest =>
      if leads pat (c :: rest) then some 0
      else (findAt pat rest).map (· + 1)

/-- The portion of `s` before the first occurrence of a blank line
(`"\n\n"`); the whole of `s` when no blank line occurs.  This is the lazy
capture of `([\s\S]*?)(?=\n\n|$)` (no `/m` flag, so `$` is end of input). -/
def takeUntilBlank : Str → Str
  | '\n' :: '\n' :: _ => []
  | c :: rest => c :: takeUntilBlank rest
  | [] => []

/-- JSON values, as produced by `JSON.parse`.  Numbers are modelled as
integers: fractional and exponent parts are not modelled, so inputs using
them fail to parse. -/
inductive Json where
  | jnull
  | jbool (b : Bool)
  | jnum (n : Int)
  | jstr (s : Str)
  | jarr (xs : List Json)
  | jobj (fs : List (Str × Json))

/-- Skip JSON insignificant whitespace. -/
def skipWs (s : Str) : Str := s.dropWhile isJsWs

def lbraceChar : Char := Char.ofNat 123

def rbraceChar : Char := Char.ofNat 125

/-- JSON string escapes (`\uXXXX` escapes are not modelled: such input
fails to parse). -/
def escChar (e : Char) : Option Char :=
  if e == 'n' then some '\n'
  else if e == 't' then some '\t'
  else if e == 'r' then some '\r'
  else if e == 'b' then some (Char.ofNat 8)
  else if e == 'f' then some (Char.ofNat 12)
  else if e == '"' || e == '\\' || e == '/' then some e
  else none

/-- Parse the body of a JSON string after the opening quote; returns the
decoded content and the remainder after the closing quote. -/
def parseStrChars : Str → Option (Str × Str)
  | [] => none
  | '"' :: rest => some ([], rest)
  | '\\' :: [] => none
  | '\\' :: e :: rest =>
      match escChar e with
      | none => none
      | some d => (parseStrChars rest).map (fun pr => (d :: pr.1, pr.2))
  | c :: rest => (parseStrChars rest).map (fun pr => (c :: pr.1, pr.2))

def digitsToNat (ds : Str) : Nat :=
  ds.foldl (fun n c => n * 10 + (c.toNat - 48)) 0

/-- Parse a JSON integer (no fraction/exponent support: their presence
makes the parse fail). -/
def parseNum (s : Str) : Option (Int × Str) :=
  let core := fun (neg : Bool) (t : Str) =>
    let ds := t.takeWhile Char.isDigit
    let rest := t.dropWhile Char.isDigit
    if ds.isEmpty then none
    else
      match rest with
      | '.' :: _ => none
      | 'e' :: _ => none
      | 'E' :: _ => none
      | _ =>
          let n : Int := Int.ofNat (digitsToNat ds)
          some (if neg then -n else n, rest)
  match s with
  | '-' :: t => core true t
  | t => core false t

mutual

/-- Fuel-indexed JSON value parser (model of `JSON.parse`). -/
def parseVal : Nat → Str → Option (Json × Str)
  | 0, _ => none
  | fuel + 1, s =>
    match skipWs s with
    | 'n' :: 'u' :: 'l' :: 'l' :: rest => some (Json.jnull, rest)
    | 't' :: 'r' :: 'u' :: 'e' :: rest => some (Json.jbool true, rest)
    | 'f' :: 'a' :: 'l' :: 's' :: 'e' :: rest => some (Json.jbool false, rest)
    | '"' :: rest => (parseStrChars rest).map (fun pr => (Json.jstr pr.1, pr.2))
    | '[' :: rest =>
        (match skipWs rest with
         | ']' :: rest2 => some (Json.jarr [], rest2)
         | t => (parseItems fuel t).map (fun pr => (Json.jarr pr.1, pr.2)))
    | t =>
        if t.head? == some lbraceChar then
          match skipWs t.tail with
          | [] => none
          | c :: rest2 =>
              if c == rbraceChar then some (Json.jobj [], rest2)
              else (parseFields fuel (c :: rest2)).map (fun pr => (Json.jobj pr.1, pr.2))
        else (parseNum t).map (fun pr => (Json.jnum pr.1, pr.2))

/-- Comma-separated JSON array items up to the closing bracket. -/
def parseItems : Nat → Str → Option (List Json × Str)
  | 0, _ => none
  | fuel + 1, s =>
    match parseVal fuel s with
    | none => none
    | some (v, rest) =>
      match skipWs rest with
      | ',' :: rest2 => (parseItems fuel rest2).map (fun pr => (v :: pr.1, pr.2))
      | ']' :: rest2 => some ([v], rest2)
      | _ => none

/-- Comma-separated JSON object members up to the closing brace. -/
def parseFields : Nat → Str → Option (List (Str × Json) × Str)
  | 0, _ => none
  | fuel + 1, s =>
    match skipWs s with
    | '"' :: rest =>
      (match parseStrChars rest with
       | none => none
       | some (k, rest2) =>
         match skipWs rest2 with
         | ':' :: rest3 =>
           (match parseVal fuel rest3 with
            | none => none
            | some (v, rest4) =>
              match skipWs rest4 with
              | ',' :: rest5 => (parseFields fuel rest5).map (fun pr => ((k, v) :: pr.1, pr.2))
              | c :: rest5 =>
                  if c == rbraceChar then some ([(k, v)], rest5) else none
              | [] => none)
         | _ => none)
    | _ => none

end

/-- `JSON.parse`: the whole input must be one JSON document (trailing
whitespace allowed); `none` models a thrown `SyntaxError`. -/
def jsonParse (s : Str) : Option Json :=
  match parseVal (2 * s.length + 4) s with
  | some (v, rest) => if (skipWs rest).isEmpty then some v else none
  | none => none

/-- The JS regex match `text.match(/\[[\s\S]*\]/)`: the pattern is greedy,
so the match runs from the first `[` of the text to the last `]`; `none`
when no such span exists. -/
def bracketSpan (s : Str) : Option Str :=
  match findAt ['['] s with
  | none => none
  | some i =>
    match findAt [']'] s.reverse with
    | none => none
    | some k =>
      let j := s.length - 1 - k
      if i < j then some ((s.drop i).take (j - i + 1)) else none

/-- The three hardcoded fallback suggestions installed by the `catch`
around `JSON.parse`. -/
def fallbackSuggestions : List Json :=
  [Json.jstr (str "Add more visual elements and data visualizations"),
   Json.jstr (str "Emphasize the unique value proposition more prominently"),
   Json.jstr (str "Include social proof and credibility indicators")]

/-- The generic filler pushed by the padding loop. -/
def fillerSuggestion : Json :=
  Json.jstr (str "Enhance the slide with more professional design elements")

/-- The `while (suggestions.length < 3) push(filler)` loop followed by
`suggestions.slice(0, 3)`. -/
def padTo3 (xs : List Json) : List Json :=
  (xs ++ List.replicate (3 - xs.length) fillerSuggestion).take 3

/-- Suggestion post-processing of `POST /get-refine-options`: extract the
bracketed span, `JSON.parse` it (a thrown parse error installs the
hardcoded fallbacks; a missing span leaves the initial `[]` untouched),
then normalize to exactly three entries. -/
def refineSuggestionsOf (text : Str) : List Json :=
  let parsed : List Json :=
    match bracketSpan text with
    | none => []
    | some block =>
      match jsonParse block with
      | some (Json.jarr xs) => xs
      | some _ => []
      | none => fallbackSuggestions
  padTo3 parsed

/-- Outbound HTTP calls the server can attempt, tagged with the prompt or
object key they carry, in the order they are issued. -/
inductive Call where
  | textGen (p : Str)
  | imageGen (p : Str)
  | storagePut (key : Str)

/-- One entry of an image-generation `predictions` array. -/
structure Pred where
  bytesBase64Encoded : Option Str

/-- Oracle for one image-generation fetch: HTTP success flag, raw body
text (read on failure), and the optional `predictions` array of the JSON
body. -/
structure ImageResp where
  ok : Bool
  body : Str
  predictions : Option (List Pred)

/-- Oracle for one text-generation fetch: HTTP success flag and the value
of `candidates?.[0]?.content?.parts?.[0]?.text` (absent links in the
optional chain collapse to `none`). -/
structure TextResp where
  ok : Bool
  text : Option Str

/-- The fixed Style Option enumeration. -/
def concepts : List Str :=
  [str "minimalist with bold typography",
   str "with data visualization focus",
   str "with icon-heavy design"]

/-- A JSON request-body value for `selectedOption`; the modelled subset is
numbers (as integers) and strings, enough for the behaviours the claims
quantify over. -/
inductive JsVal where
  | vnum (n : Int)
  | vstr (s : Str)
  deriving DecidableEq

/-- JS property lookup `concepts[v]`: the property key is `ToString(v)`,
so the numbers 0, 1, 2 and the canonical index strings "0", "1", "2"
resolve to an element; every other modelled value reads `undefined`. -/
def conceptIdx : JsVal → Option Nat
  | JsVal.vnum n =>
      if n = 0 then some 0
      else if n = 1 then some 1
      else if n = 2 then some 2
      else none
  | JsVal.vstr s =>
      if s = str "0" then some 0
      else if s = str "1" then some 1
      else if s = str "2" then some 2
      else none

/-- JS `concepts[selectedOption]` as interpolated into a template string:
a failed lookup reads `undefined`, which the template renders as the text
"undefined". -/
def conceptAt (v : JsVal) : Str :=
  match conceptIdx v with
  | some k => concepts.getD k []
  | none => str "undefined"

/-- `data:image/png;base64,${b}` — an absent value renders as
"undefined". -/
def dataUri (b : Option Str) : Str :=
  str "data:image/png;base64," ++ match b with | some s => s | none => str "undefined"

/-- `imageData.predictions?.[0]?.bytesBase64Encoded`. -/
def predBytes (r : ImageResp) : Option Str :=
  match r.predictions with
  | some (pr :: _) => pr.bytesBase64Encoded
  | _ => none

/-- The per-style rough-sketch prompt of `/generate-options`. -/
def optionPrompt (p : Str) (i : Nat) : Str :=
  str "Simple rough sketch of a business pitch slide for: " ++ p ++
  str ". Style: " ++ concepts.getD i [] ++
  str ". Wireframe style, basic layout, minimal detail, grayscale or simple colors, placeholder text blocks. Think of this as a preliminary concept sketch."

/-- Message of the error thrown when the fetch for option `i` is not ok. -/
def optionFailMsg (i : Nat) : Str :=
  str "Option " ++ (Nat.repr (i + 1)).toList ++ str " generation failed"

/-- One element of the `options` array of a successful
`/generate-options` response. -/
structure OptEntry where
  id : Nat
  concept : Str
  imageBase64 : Option Str
  image : Str

/-- Response shape of `/generate-options`; absent JSON keys are `none`. -/
structure OptionsResp where
  status : Nat
  success : Option Bool
  options : Option (List OptEntry)
  error : Option Str

def optionsBase (st : Nat) : OptionsResp := ⟨st, none, none, none⟩

def mkOptEntry (oracle : Nat → ImageResp) (i : Nat) : OptEntry :=
  ⟨i + 1, concepts.getD i [], predBytes (oracle i), dataUri (predBytes (oracle i))⟩

/-- `Promise.all` slot assembly: each of the three parallel jobs writes
the slot of its own index, so the assembled array depends only on which
jobs completed, never on when. -/
def gather3 (sched : List Nat) (f : Nat → OptEntry) : List OptEntry :=
  [0, 1, 2].filterMap (fun i => if i ∈ sched then some (f i) else none)

/-- `POST /generate-options`.  `oracle i` is the response of the fetch for
style `i`; `sched` lists the indices of the three parallel fetches in
completion order (`Promise.all` rejects with the first rejection in that
order). -/
def generateOptions (oracle : Nat → ImageResp) (sched : List Nat)
    (prompt : Option Str) : OptionsResp × List Call :=
  match prompt with
  | some (c :: cs) =>
    let p := c :: cs
    let calls := [Call.imageGen (optionPrompt p 0), Call.imageGen (optionPrompt p 1),
                  Call.imageGen (optionPrompt p 2)]
    (match sched.find? (fun i => !(oracle i).ok) with
     | some i => ({ optionsBase 500 with error := some (optionFailMsg i) }, calls)
     | none =>
        ({ optionsBase 200 with
           success := some true
           options := some (gather3 sched (mkOptEntry oracle)) }, calls))
  | _ => ({ optionsBase 400 with error := some (str "Prompt is required") }, [])

/-- The fixed marker locating the concept summary block. -/
def conceptMarker : Str := str "SLIDE CONCEPT:"

/-- `fullDescription.match(/SLIDE CONCEPT:([\s\S]*?)(?=\n\n|$)/)` followed
by `.trim()` and `replace(/\*\*/g, '')`; `none` when the marker is
absent. -/
def extractConcept (full : Str) : Option Str :=
  match findAt conceptMarker full with
  | none => none
  | some i =>
      some (removeStars (jsTrim (takeUntilBlank (full.drop (i + conceptMarker.length)))))

/-- Fallback concept display of `/generate-final` when the marker is
absent. -/
def finalFallback (p concept : Str) : Str :=
  str "• Headline: " ++ p.take 50 ++ str "...\n• Style: " ++ concept ++
  str "\n• Key Points: Professional pitch design"

/-- Fallback concept display of `/refine-slide` when the marker is
absent. -/
def refineFallback (p concept : Str) : Str :=
  str "• Headline: " ++ p.take 40 ++ str "...\n• Style: " ++ concept ++
  str "\n• Refinement: Applied"

/-- Text-generation prompt of `/generate-final`. -/
def finalTextPrompt (p concept : Str) : Str :=
  str "You are a professional business presentation designer. Create a sophisticated business pitch slide for this idea: \"" ++ p ++
  str "\"\n\nDesign style: " ++ concept ++
  str "\n\nFirst, provide a concise slide concept summary (for display to user) in this exact format:\nSLIDE CONCEPT:\n• Headline: [short, catchy title]\n• Style: " ++ concept ++
  str "\n• Key Points: [3 short bullet points max 6 words each]\n\nThen, describe the visual layout for image generation. Be specific about typography, colors, layout, and visual elements for creating an investor-ready pitch slide."

/-- Image-generation prompt of `/generate-final`. -/
def finalImagePrompt (full : Str) : Str :=
  str "Ultra high-end professional business pitch slide: " ++ full ++
  str ". Stunning visual design, investor-ready quality, crisp typography, perfect color harmony, print-quality resolution, modern aesthetic, Appropriate for Silicon Valley VC presentations."

/-- Text-generation prompt of `/get-refine-options`. -/
def refineOptionsPrompt (p : Str) : Str :=
  str "You are an expert presentation designer. Based on this business idea: \"" ++ p ++
  str "\"\n\nSuggest 3 specific ways to IMPROVE and REFINE a pitch slide for this idea. Each suggestion should be actionable and different from the others.\n\nFormat your response as a JSON array of strings, like this:\n[\n  \"Make it more visual with data charts and infographics\",\n  \"Add customer testimonials and social proof\",\n  \"Emphasize the revenue model with clear financial projections\"\n]\n\nProvide only the JSON array, no other text."

/-- Text-generation prompt of `/refine-slide`. -/
def refineTextPrompt (p concept ins : Str) : Str :=
  str "You are a professional business presentation designer. Create a REFINED business pitch slide.\n\nOriginal idea: \"" ++ p ++
  str "\"\nDesign style: " ++ concept ++
  str "\nREFINEMENT: " ++ ins ++
  str "\n\nFirst, provide a concise slide concept summary (for display to user) in this exact format:\nSLIDE CONCEPT:\n• Headline: [short, catchy title]\n• Style: " ++ concept ++
  str "\n" ++ (str "• Refinement: " ++ ins.take 30 ++ str "...") ++
  str "\n• Key Points: [3 short bullet points max 6 words each]\n\nThen, describe the visual layout for image generation incorporating the refinement. Be specific about typography, colors, layout, and visual elements for creating an improved investor-ready pitch slide."

/-- Image-generation prompt of `/refine-slide`. -/
def refineImagePrompt (full : Str) : Str :=
  str "Ultra high-end professional business pitch slide (REFINED VERSION): " ++ full ++
  str ". Stunning visual design, investor-ready quality, crisp typography, perfect color harmony, print-quality resolution, modern aesthetic, Appropriate for Silicon Valley VC presentations. This is an IMPROVED, more polished version with enhanced visual appeal."

/-- Response shape of `/generate-final` and `/refine-slide`; absent JSON
keys are `none`. -/
structure FinalResp where
  status : Nat
  success : Option Bool
  image : Option Str
  imageBase64 : Option Str
  description : Option Str
  isRefinement : Option Bool
  error : Option Str
  details : Option Str

def finalBase (st : Nat) : FinalResp := ⟨st, none, none, none, none, none, none, none⟩

/-- `POST /generate-final`. -/
def generateFinal (tr : TextResp) (ir : ImageResp)
    (prompt : Option Str) (so : Option JsVal) : FinalResp × List Call :=
  match prompt, so with
  | some (c :: cs), some i =>
    let p := c :: cs
    let concept := conceptAt i
    let tPrompt := finalTextPrompt p concept
    if tr.ok then
      let full := jsOr tr.text p
      let disp := match extractConcept full with
                  | some d => d
                  | none => finalFallback p concept
      let iPrompt := finalImagePrompt full
      let calls := [Call.textGen tPrompt, Call.imageGen iPrompt]
      if ir.ok then
        match ir.predictions with
        | some (pr :: _) =>
            ({ finalBase 200 with
               success := some true
               image := some (dataUri pr.bytesBase64Encoded)
               imageBase64 := pr.bytesBase64Encoded
               description := some disp }, calls)
        | _ => ({ finalBase 500 with error := some (str "No image generated") }, calls)
      else
        ({ finalBase 500 with
           error := some (str "Image generation failed")
           details := some ir.body }, calls)
    else
      ({ finalBase 500 with error := some (str "Text generation failed") },
       [Call.textGen tPrompt])
  | _, _ =>
      ({ finalBase 400 with
         error := some (str "Prompt and selected option are required") }, [])

/-- Response shape of `/get-refine-options`. -/
structure SuggestResp where
  status : Nat
  success : Option Bool
  suggestions : Option (List Json)
  error : Option Str

def suggestBase (st : Nat) : SuggestResp := ⟨st, none, none, none⟩

/-- `POST /get-refine-options`.  The `selectedOption` value is only
tested against `undefined`, never read. -/
def getRefineOptions (tr : TextResp) (prompt : Option Str) (so : Option JsVal) :
    SuggestResp × List Call :=
  match prompt, so with
  | some (c :: cs), some _ =>
    let p := c :: cs
    let tPrompt := refineOptionsPrompt p
    if tr.ok then
      ({ suggestBase 200 with
         success := some true
         suggestions := some (refineSuggestionsOf (jsOr tr.text [])) },
       [Call.textGen tPrompt])
    else
      ({ suggestBase 500 with
         error := some (str "Refinement suggestions generation failed") },
       [Call.textGen tPrompt])
  | _, _ =>
      ({ suggestBase 400 with
         error := some (str "Prompt and selected option are required") }, [])

/-- `POST /refine-slide`.  `isCustom` is destructured but never used or
validated. -/
def refineSlide (tr : TextResp) (ir : ImageResp) (prompt : Option Str)
    (so : Option JsVal) (instr : Option Str) (isCustom : Option Bool) :
    FinalResp × List Call :=
  match prompt, so, instr with
  | some (c :: cs), some i, some (d :: ds) =>
    let p := c :: cs
    let ins := d :: ds
    let concept := conceptAt i
    let tPrompt := refineTextPrompt p concept ins
    if tr.ok then
      let full := jsOr tr.text p
      let disp := match extractConcept full with
                  | some e => e
                  | none => refineFallback p concept
      let iPrompt := refineImagePrompt full
      let calls := [Call.textGen tPrompt, Call.imageGen iPrompt]
      if ir.ok then
        match ir.predictions with
        | some (pr :: _) =>
            ({ finalBase 200 with
               success := some true
               image := some (dataUri pr.bytesBase64Encoded)
               imageBase64 := pr.bytesBase64Encoded
               description := some disp
               isRefinement := some true }, calls)
        | _ => ({ finalBase 500 with error := some (str "No image generated") }, calls)
      else
        ({ finalBase 500 with
           error := some (str "Image generation failed")
           details := some ir.body }, calls)
    else
      ({ finalBase 500 with
         error := some (str "Refined description generation failed") },
       [Call.textGen tPrompt])
  | _, _, _ =>
      ({ finalBase 400 with
         error := some (str "Prompt, selected option, and refinement instruction are required") }, [])

/-- Lower-case ASCII letter or digit: the characters kept by
`replace(/[^a-z0-9]+/g, '-')` after lower-casing. -/
def isLowerAlnum (c : Char) : Bool :=
  (decide (97 ≤ c.toNat) && decide (c.toNat ≤ 122)) ||
  (decide (48 ≤ c.toNat) && decide (c.toNat ≤ 57))

/-- `replace(/[^a-z0-9]+/g, '-')`: each maximal run of non-alphanumerics
becomes a single hyphen.  The flag records whether the previous character
belonged to such a run. -/
def collapseGo : Bool → Str → Str
  | _, [] => []
  | inRun, c :: rest =>
      if isLowerAlnum c then c :: collapseGo false rest
      else if inRun then collapseGo true rest
      else '-' :: collapseGo true rest

def collapseRuns (s : Str) : Str := collapseGo false s

/-- `replace(/^-+|-+$/g, '')`: strip leading and trailing hyphens. -/
def trimHyphens (s : Str) : Str :=
  ((s.dropWhile (· == '-')).reverse.dropWhile (· == '-')).reverse

/-- The sanitized slug of `/upload`:
`prompt.toLowerCase().replace(/[^a-z0-9]+/g, '-').replace(/^-+|-+$/g, '').substring(0, 50)`
(`toLowerCase` is modelled on its ASCII fragment). -/
def sanitize (p : Str) : Str :=
  (trimHyphens (collapseRuns (p.map Char.toLower))).take 50

/-- The object key ``slides/${sanitizedPrompt}/${timestamp}.png``. -/
def objectKey (p : Str) (now : Nat) : Str :=
  str "slides/" ++ sanitize p ++ str "/" ++ (Nat.repr now).toList ++ str ".png"

/-- ASCII word character of the regex class `\w`. -/
def isWordChar (c : Char) : Bool :=
  isLowerAlnum c || (decide (65 ≤ c.toNat) && decide (c.toNat ≤ 90)) || c == '_'

/-- `imageBase64.replace(/^data:image\/\w+;base64,/, '')`: strip an inline
data-URI header when present. -/
def stripDataUri (s : Str) : Str :=
  if leads (str "data:image/") s then
    let rest := s.drop 11
    let w := rest.takeWhile isWordChar
    let rest2 := rest.dropWhile isWordChar
    if w.isEmpty then s
    else if leads (str ";base64,") rest2 then rest2.drop 8 else s
  else s

/-- Oracle for the storage `PUT`: HTTP success flag, the fields of the
returned descriptor (`data.data || data`), and the error payload exposed
through `error.response?.data` on failure. -/
structure StorageResp where
  ok : Bool
  key : Option Str
  url : Option Str
  bucket : Option Str
  uploadedAt : Option Str
  errBody : Str

/-- Response shape of `/upload`; absent JSON keys are `none`. -/
structure UploadResp where
  status : Nat
  success : Option Bool
  key : Option Str
  fileName : Option Str
  fileUrl : Option Str
  bucket : Option Str
  uploadedAt : Option Str
  error : Option Str
  details : Option Str

def uploadBase (st : Nat) : UploadResp :=
  ⟨st, none, none, none, none, none, none, none, none⟩

/-- The message of the `TypeError` thrown by `prompt.toLowerCase()` when
`prompt` is `undefined` (engine-specific text, abbreviated here; no claim
inspects it). -/
def typeErrorDetails : Str :=
  str "Cannot read properties of undefined"

/-- `POST /upload`.  `sr` is the storage oracle, `now` the `Date.now()`
timestamp.  Only `imageBase64` is validated; a missing `prompt` with a
present image makes `prompt.toLowerCase()` throw, which the surrounding
`catch` converts into a 500 before any storage call. -/
def upload (sr : StorageResp) (now : Nat)
    (imageBase64 : Option Str) (prompt : Option Str) : UploadResp × List Call :=
  match imageBase64 with
  | some (_ :: _) =>
    (match prompt with
     | none =>
        ({ uploadBase 500 with
           error := some (str "Upload to InsForge failed")
           details := some typeErrorDetails }, [])
     | some p =>
        let key := objectKey p now
        if sr.ok then
          ({ uploadBase 200 with
             success := some true
             key := sr.key
             fileName := some key
             fileUrl := sr.url
             bucket := sr.bucket
             uploadedAt := sr.uploadedAt }, [Call.storagePut key])
        else
          ({ uploadBase 500 with
             error := some (str "Upload to InsForge failed")
             details := some sr.errBody }, [Call.storagePut key]))
  | _ => ({ uploadBase 400 with error := some (str "Image data is required") }, [])

/-! Helper lemmas. -/

theorem padTo3_length (xs : List Json) : (padTo3 xs).length = 3 := by
  simp only [padTo3, List.length_take, List.length_append, List.length_replicate]
  omega

theorem refineSuggestionsOf_length (t : Str) : (refineSuggestionsOf t).length = 3 := by
  unfold refineSuggestionsOf
  exact padTo3_length _

/-- Text of a suggestion entry (used to separate unequal suggestion
lists). -/
def suggestionText : Json → Str
  | Json.jstr s => s
  | _ => []

/-! Claim C1. -/

/-- C1: for every upstream text-generation response, a valid
`get-refine-options` request is answered with a `suggestions` array of
exactly three entries — the parsed suggestions padded with the generic
filler or truncated to three. -/
theorem getRefineOptions_exactly_three
    (tr : TextResp) (c : Char) (cs : Str) (i : JsVal) (h : tr.ok = true) :
    (getRefineOptions tr (some (c :: cs)) (some i)).1.suggestions =
      some (refineSuggestionsOf (jsOr tr.text [])) ∧
    (refineSuggestionsOf (jsOr tr.text [])).length = 3 := by
  constructor
  · simp [getRefineOptions, h]
  · exact refineSuggestionsOf_length _

/-- Witness for C1 at a concrete request whose upstream text holds a
two-element JSON array. -/
theorem getRefineOptions_exactly_three_witness :
    (getRefineOptions ⟨true, some (str "[\"a\", \"b\"]")⟩ (some ['x']) (some (JsVal.vnum 0))).1.suggestions =
      some (refineSuggestionsOf (jsOr (some (str "[\"a\", \"b\"]")) [])) ∧
    (refineSuggestionsOf (jsOr (some (str "[\"a\", \"b\"]")) [])).length = 3 :=
  getRefineOptions_exactly_three ⟨true, some (str "[\"a\", \"b\"]")⟩ 'x' [] (JsVal.vnum 0) rfl

/-! Claim C2. -/

/-- Counterexample to C2: when the upstream text holds no bracketed block
at all ("missing structured text"), the suggestions are NOT the three
hardcoded fallbacks — the initial empty array is padded with three copies
of the generic filler instead, because the `catch` never runs. -/
theorem refineSuggestions_missing_block_cex :
    refineSuggestionsOf (str "Sure, here are three ideas for you.") ≠
      fallbackSuggestions := by
  intro h
  have h2 := congrArg (List.map suggestionText) h
  revert h2
  decide

/-- C2 amended: the array is extracted as the span from the first `[` to
the last `]` of the text and `JSON.parse`d; when that parse throws, the
three hardcoded fallbacks are used; when no such span exists the parse is
skipped and the empty array is padded with the generic filler; in every
case the response is a silent 200 with no error field. -/
theorem refineSuggestions_pipeline
    (t : Str) (tr : TextResp) (c : Char) (cs : Str) (i : JsVal) :
    (bracketSpan t = none → refineSuggestionsOf t = padTo3 []) ∧
    (∀ b, bracketSpan t = some b → jsonParse b = none →
        refineSuggestionsOf t = fallbackSuggestions) ∧
    (∀ b xs, bracketSpan t = some b → jsonParse b = some (Json.jarr xs) →
        refineSuggestionsOf t = padTo3 xs) ∧
    (tr.ok = true →
      (getRefineOptions tr (some (c :: cs)) (some i)).1.status = 200 ∧
      (getRefineOptions tr (some (c :: cs)) (some i)).1.error = none) := by
  refine ⟨?_, ?_, ?_, ?_⟩
  · intro h
    simp [refineSuggestionsOf, h]
  · intro b hb hp
    simp only [refineSuggestionsOf, hb, hp]
    rfl
  · intro b xs hb hp
    simp [refineSuggestionsOf, hb, hp]
  · intro h
    constructor <;> simp [getRefineOptions, h, suggestBase]

/-- Witness for C2 (amended) at a text with two bracketed arrays: the
greedy span covers both, its parse throws, and the hardcoded fallbacks are
returned. -/
theorem refineSuggestions_pipeline_witness :
    refineSuggestionsOf (str "x [\"a\"] y [\"b\"] z") = fallbackSuggestions :=
  (refineSuggestions_pipeline (str "x [\"a\"] y [\"b\"] z") ⟨true, none⟩ 'x' [] (JsVal.vnum 0)).2.1
    (str "[\"a\"] y [\"b\"]") (by decide) rfl

/-! Claim C5. -/

/-- C5: the `/upload` object key is the deterministic value
`slides/<slug>/<timestamp>.png`, where the slug lower-cases the idea,
collapses non-alphanumeric runs to single hyphens, trims edge hyphens and
truncates to 50 characters; the idea "A Flying Car! Service" slugs to
`a-flying-car-service`. -/
theorem upload_object_key (sr : StorageResp) (now : Nat) (p : Str)
    (c : Char) (cs : Str) :
    (upload sr now (some (c :: cs)) (some p)).2 =
      [Call.storagePut (objectKey p now)] ∧
    objectKey p now =
      str "slides/" ++ (trimHyphens (collapseRuns (p.map Char.toLower))).take 50 ++
      str "/" ++ (Nat.repr now).toList ++ str ".png" ∧
    sanitize (str "A Flying Car! Service") = str "a-flying-car-service" ∧
    objectKey (str "A Flying Car! Service") 1712000000000 =
      str "slides/a-flying-car-service/1712000000000.png" := by
  refine ⟨?_, rfl, by decide, by decide⟩
  by_cases h : sr.ok <;> simp [upload, h]

/-! Claim C10. -/

/-- C10: in `/generate-final` and `/refine-slide`, an HTTP-successful
image call whose body carries no (or an empty) `predictions` array yields
a bare 500 response with error "No image generated" and no image,
imageBase64 or description fields. -/
theorem no_image_generated
    (tr : TextResp) (ir : ImageResp) (c d : Char) (cs ds : Str) (i : JsVal)
    (ic : Option Bool) (htr : tr.ok = true) (hir : ir.ok = true)
    (hpred : ir.predictions = none ∨ ir.predictions = some []) :
    (generateFinal tr ir (some (c :: cs)) (some i)).1 =
      { finalBase 500 with error := some (str "No image generated") } ∧
    (refineSlide tr ir (some (c :: cs)) (some i) (some (d :: ds)) ic).1 =
      { finalBase 500 with error := some (str "No image generated") } := by
  rcases hpred with h | h <;>
    exact ⟨by simp [generateFinal, htr, hir, h],
           by simp [refineSlide, htr, hir, h]⟩

/-- Witness for C10: a successful image call answering `predictions: []`. -/
theorem no_image_generated_witness :
    (generateFinal ⟨true, some (str "text")⟩ ⟨true, [], some []⟩
        (some ['a']) (some (JsVal.vnum 0))).1 =
      { finalBase 500 with error := some (str "No image generated") } ∧
    (refineSlide ⟨true, some (str "text")⟩ ⟨true, [], some []⟩
        (some ['a']) (some (JsVal.vnum 0)) (some ['b']) none).1 =
      { finalBase 500 with error := some (str "No image generated") } :=
  no_image_generated ⟨true, some (str "text")⟩ ⟨true, [], some []⟩
    'a' 'b' [] [] (JsVal.vnum 0) none rfl rfl (Or.inr rfl)

/-! Claim C3. -/

/-- Counterexample to C3: an `/upload` request with an image but no
`prompt` is NOT answered with 400 — `prompt.toLowerCase()` throws and the
`catch` answers 500. -/
theorem upload_missing_prompt_cex :
    (upload ⟨true, none, none, none, none, []⟩ 0 (some (str "AAA")) none).1.status ≠
      400 := by
  decide

/-- C3 amended: every field an endpoint actually validates yields 400 with
no upstream call when missing (or empty, for string fields); `/upload`
validates only `imageBase64`, and an upload request with an image but no
`prompt` yields 500 (from the caught `TypeError`), still before any
storage call. -/
theorem missing_field_validation
    (oracle : Nat → ImageResp) (sched : List Nat) (tr : TextResp) (ir : ImageResp)
    (sr : StorageResp) (now : Nat) (p img : Option Str) (so : Option JsVal)
    (ins : Option Str) (ic : Option Bool) (c : Char) (cs : Str) :
    (strFalsy p = true →
      generateOptions oracle sched p =
        ({ optionsBase 400 with error := some (str "Prompt is required") }, [])) ∧
    (strFalsy p = true ∨ so = none →
      generateFinal tr ir p so =
        ({ finalBase 400 with
           error := some (str "Prompt and selected option are required") }, [])) ∧
    (strFalsy p = true ∨ so = none →
      getRefineOptions tr p so =
        ({ suggestBase 400 with
           error := some (str "Prompt and selected option are required") }, [])) ∧
    (strFalsy p = true ∨ so = none ∨ strFalsy ins = true →
      refineSlide tr ir p so ins ic =
        ({ finalBase 400 with
           error := some (str "Prompt, selected option, and refinement instruction are required") },
         [])) ∧
    (strFalsy img = true →
      upload sr now img p =
        ({ uploadBase 400 with error := some (str "Image data is required") }, [])) ∧
    (upload sr now (some (c :: cs)) none =
      ({ uploadBase 500 with
         error := some (str "Upload to InsForge failed")
         details := some typeErrorDetails }, [])) := by
  refine ⟨?_, ?_, ?_, ?_, ?_, rfl⟩
  · intro h
    rcases p with _ | (_ | ⟨c', cs'⟩) <;> first | rfl | simp [strFalsy] at h
  · intro h
    rcases p with _ | (_ | ⟨c', cs'⟩) <;> rcases so with _ | i <;>
      first | rfl | (rcases h with h | h <;> simp [strFalsy] at h)
  · intro h
    rcases p with _ | (_ | ⟨c', cs'⟩) <;> rcases so with _ | i <;>
      first | rfl | (rcases h with h | h <;> simp [strFalsy] at h)
  · intro h
    rcases p with _ | (_ | ⟨c', cs'⟩) <;> rcases so with _ | i <;>
      rcases ins with _ | (_ | ⟨d', ds'⟩) <;>
      first | rfl | (rcases h with h | h | h <;> simp [strFalsy] at h)
  · intro h
    rcases img with _ | (_ | ⟨c', cs'⟩) <;> first | rfl | simp [strFalsy] at h

/-- Witness for C3 (amended), exercising each endpoint's validation at a
concrete missing field, plus the upload 500 path for a missing prompt. -/
theorem missing_field_validation_witness :
    generateOptions (fun _ => ⟨true, [], none⟩) [0, 1, 2] none =
      ({ optionsBase 400 with error := some (str "Prompt is required") }, []) ∧
    generateFinal ⟨true, none⟩ ⟨true, [], none⟩ (some ['x']) none =
      ({ finalBase 400 with
         error := some (str "Prompt and selected option are required") }, []) ∧
    getRefineOptions ⟨true, none⟩ (some ['x']) none =
      ({ suggestBase 400 with
         error := some (str "Prompt and selected option are required") }, []) ∧
    refineSlide ⟨true, none⟩ ⟨true, [], none⟩ (some ['x']) (some (JsVal.vnum 0)) none none =
      ({ finalBase 400 with
         error := some (str "Prompt, selected option, and refinement instruction are required") },
       []) ∧
    upload ⟨true, none, none, none, none, []⟩ 5 (some []) (some ['x']) =
      ({ uploadBase 400 with error := some (str "Image data is required") }, []) ∧
    upload ⟨true, none, none, none, none, []⟩ 5 (some ['A']) none =
      ({ uploadBase 500 with
         error := some (str "Upload to InsForge failed")
         details := some typeErrorDetails }, []) :=
  ⟨(missing_field_validation (fun _ => ⟨true, [], none⟩) [0, 1, 2] ⟨true, none⟩
      ⟨true, [], none⟩ ⟨true, none, none, none, none, []⟩ 5 none none none none
      none 'x' []).1 rfl,
   (missing_field_validation (fun _ => ⟨true, [], none⟩) [0, 1, 2] ⟨true, none⟩
      ⟨true, [], none⟩ ⟨true, none, none, none, none, []⟩ 5 (some ['x']) none none
      none none 'x' []).2.1 (Or.inr rfl),
   (missing_field_validation (fun _ => ⟨true, [], none⟩) [0, 1, 2] ⟨true, none⟩
      ⟨true, [], none⟩ ⟨true, none, none, none, none, []⟩ 5 (some ['x']) none none
      none none 'x' []).2.2.1 (Or.inr rfl),
   (missing_field_validation (fun _ => ⟨true, [], none⟩) [0, 1, 2] ⟨true, none⟩
      ⟨true, [], none⟩ ⟨true, none, none, none, none, []⟩ 5 (some ['x']) none
      (some (JsVal.vnum 0)) none none 'x' []).2.2.2.1 (Or.inr (Or.inr rfl)),
   (missing_field_validation (fun _ => ⟨true, [], none⟩) [0, 1, 2] ⟨true, none⟩
      ⟨true, [], none⟩ ⟨true, none, none, none, none, []⟩ 5 (some ['x']) (some [])
      none none none 'x' []).2.2.2.2.1 rfl,
   (missing_field_validation (fun _ => ⟨true, [], none⟩) [0, 1, 2] ⟨true, none⟩
      ⟨true, [], none⟩ ⟨true, none, none, none, none, []⟩ 5 none (some ['A'])
      none none none 'A' []).2.2.2.2.2⟩

/-! Claim C4. -/

/-- C4: with the marker present, the description of `/generate-final` and
`/refine-slide` is the upstream text from after `SLIDE CONCEPT:` to the
next blank line (or end), trimmed, with every `**` removed and otherwise
verbatim; with the marker absent it is the deterministic fallback, which
embeds the selected style name and a prefix of the idea of at most 50
(final) or 40 (refine) characters. -/
theorem concept_extraction
    (tr : TextResp) (ir : ImageResp) (c d e : Char) (cs ds es : Str) (i : JsVal)
    (ic : Option Bool) (pr : Pred) (prs : List Pred)
    (htr : tr.ok = true) (hir : ir.ok = true)
    (hpred : ir.predictions = some (pr :: prs))
    (htext : tr.text = some (e :: es)) :
    (∀ k, findAt conceptMarker (e :: es) = some k →
       (generateFinal tr ir (some (c :: cs)) (some i)).1.description =
         some (removeStars (jsTrim (takeUntilBlank
           ((e :: es).drop (k + conceptMarker.length))))) ∧
       (refineSlide tr ir (some (c :: cs)) (some i) (some (d :: ds)) ic).1.description =
         some (removeStars (jsTrim (takeUntilBlank
           ((e :: es).drop (k + conceptMarker.length)))))) ∧
    (findAt conceptMarker (e :: es) = none →
       (generateFinal tr ir (some (c :: cs)) (some i)).1.description =
         some (finalFallback (c :: cs) (conceptAt i)) ∧
       (refineSlide tr ir (some (c :: cs)) (some i) (some (d :: ds)) ic).1.description =
         some (refineFallback (c :: cs) (conceptAt i))) ∧
    (∃ pre post, finalFallback (c :: cs) (conceptAt i) = pre ++ conceptAt i ++ post) ∧
    (∃ pre post, finalFallback (c :: cs) (conceptAt i) =
       pre ++ (c :: cs).take 50 ++ post) ∧
    ((c :: cs).take 50 <+: (c :: cs)) ∧ (((c :: cs).take 50).length ≤ 50) ∧
    (∃ pre post, refineFallback (c :: cs) (conceptAt i) = pre ++ conceptAt i ++ post) ∧
    (∃ pre post, refineFallback (c :: cs) (conceptAt i) =
       pre ++ (c :: cs).take 40 ++ post) ∧
    ((c :: cs).take 40 <+: (c :: cs)) ∧ (((c :: cs).take 40).length ≤ 40) := by
  refine ⟨?_, ?_, ?_, ?_, List.take_prefix _ _, List.length_take_le _ _,
          ?_, ?_, List.take_prefix _ _, List.length_take_le _ _⟩
  · intro k hk
    constructor
    · simp [generateFinal, htr, hir, hpred, htext, extractConcept, jsOr, hk]
    · simp [refineSlide, htr, hir, hpred, htext, extractConcept, jsOr, hk]
  · intro hk
    constructor
    · simp [generateFinal, htr, hir, hpred, htext, extractConcept, jsOr, hk]
    · simp [refineSlide, htr, hir, hpred, htext, extractConcept, jsOr, hk]
  · exact ⟨str "• Headline: " ++ (c :: cs).take 50 ++ str "...\n• Style: ",
           str "\n• Key Points: Professional pitch design",
           by simp [finalFallback, List.append_assoc]⟩
  · exact ⟨str "• Headline: ",
           str "...\n• Style: " ++ conceptAt i ++
             str "\n• Key Points: Professional pitch design",
           by simp [finalFallback, List.append_assoc]⟩
  · exact ⟨str "• Headline: " ++ (c :: cs).take 40 ++ str "...\n• Style: ",
           str "\n• Refinement: Applied",
           by simp [refineFallback, List.append_assoc]⟩
  · exact ⟨str "• Headline: ",
           str "...\n• Style: " ++ conceptAt i ++ str "\n• Refinement: Applied",
           by simp [refineFallback, List.append_assoc]⟩

/-- Witness for C4 at an upstream text whose concept block carries bold
markers: the description is the block trimmed with `**` removed. -/
theorem concept_extraction_witness :
    (generateFinal
        ⟨true, some ('S' :: str "LIDE CONCEPT:\n• **Bold** idea\n\nLayout text")⟩
        ⟨true, [], some [⟨some (str "IMG")⟩]⟩ (some ['a']) (some (JsVal.vnum 0))).1.description =
      some (str "• Bold idea") ∧
    (refineSlide
        ⟨true, some ('S' :: str "LIDE CONCEPT:\n• **Bold** idea\n\nLayout text")⟩
        ⟨true, [], some [⟨some (str "IMG")⟩]⟩ (some ['a']) (some (JsVal.vnum 0))
        (some ['b']) none).1.description =
      some (str "• Bold idea") := by
  have h := (concept_extraction
      ⟨true, some ('S' :: str "LIDE CONCEPT:\n• **Bold** idea\n\nLayout text")⟩
      ⟨true, [], some [⟨some (str "IMG")⟩]⟩ 'a' 'b' 'S' [] []
      (str "LIDE CONCEPT:\n• **Bold** idea\n\nLayout text") (JsVal.vnum 0) none
      ⟨some (str "IMG")⟩ [] rfl rfl rfl rfl).1 0 (by decide)
  exact ⟨h.1.trans (by decide), h.2.trans (by decide)⟩

/-! Claim C6. -/

/-- C6: whatever the completion order of the three parallel fetches, a
successful `/generate-options` response lists exactly the three style
options in enumeration order: entry `i` has id `i + 1`, the `i`-th style
name as concept, and an image built from the `i`-th fetch result. -/
theorem generateOptions_ordering
    (oracle : Nat → ImageResp) (sched : List Nat) (c : Char) (cs : Str)
    (hok : ∀ i, i < 3 → (oracle i).ok = true)
    (hsched : ∀ i, i ∈ sched ↔ i < 3) :
    (generateOptions oracle sched (some (c :: cs))).1.status = 200 ∧
    (generateOptions oracle sched (some (c :: cs))).1.options =
      some [mkOptEntry oracle 0, mkOptEntry oracle 1, mkOptEntry oracle 2] ∧
    ∀ i, i < 3 →
      (mkOptEntry oracle i).id = i + 1 ∧
      (mkOptEntry oracle i).concept = concepts.getD i [] ∧
      (mkOptEntry oracle i).imageBase64 = predBytes (oracle i) ∧
      (mkOptEntry oracle i).image = dataUri (predBytes (oracle i)) := by
  have hfind : sched.find? (fun i => !(oracle i).ok) = none := by
    rw [List.find?_eq_none]
    intro x hx
    simp [hok x ((hsched x).1 hx)]
  have h0 : (0 : Nat) ∈ sched := (hsched 0).2 (by omega)
  have h1 : (1 : Nat) ∈ sched := (hsched 1).2 (by omega)
  have h2 : (2 : Nat) ∈ sched := (hsched 2).2 (by omega)
  refine ⟨?_, ?_, fun i _ => ⟨rfl, rfl, rfl, rfl⟩⟩
  · simp [generateOptions, hfind, optionsBase]
  · simp [generateOptions, hfind, optionsBase, gather3, h0, h1, h2]

/-- Witness for C6 with completion order 2, 0, 1. -/
theorem generateOptions_ordering_witness :
    (generateOptions (fun _ => ⟨true, [], some [⟨some (str "AA")⟩]⟩) [2, 0, 1]
        (some ['x'])).1.status = 200 ∧
    (generateOptions (fun _ => ⟨true, [], some [⟨some (str "AA")⟩]⟩) [2, 0, 1]
        (some ['x'])).1.options =
      some [mkOptEntry (fun _ => ⟨true, [], some [⟨some (str "AA")⟩]⟩) 0,
            mkOptEntry (fun _ => ⟨true, [], some [⟨some (str "AA")⟩]⟩) 1,
            mkOptEntry (fun _ => ⟨true, [], some [⟨some (str "AA")⟩]⟩) 2] ∧
    ∀ i, i < 3 →
      (mkOptEntry (fun _ => ⟨true, [], some [⟨some (str "AA")⟩]⟩) i).id = i + 1 ∧
      (mkOptEntry (fun _ => ⟨true, [], some [⟨some (str "AA")⟩]⟩) i).concept =
        concepts.getD i [] ∧
      (mkOptEntry (fun _ => ⟨true, [], some [⟨some (str "AA")⟩]⟩) i).imageBase64 =
        predBytes ((fun _ => ⟨true, [], some [⟨some (str "AA")⟩]⟩) i) ∧
      (mkOptEntry (fun _ => ⟨true, [], some [⟨some (str "AA")⟩]⟩) i).image =
        dataUri (predBytes ((fun _ => ⟨true, [], some [⟨some (str "AA")⟩]⟩) i)) :=
  generateOptions_ordering (fun _ => ⟨true, [], some [⟨some (str "AA")⟩]⟩) [2, 0, 1]
    'x' [] (fun _ _ => rfl) (fun i => by simp; omega)

/-! Claim C7. -/

/-- C7: any upstream non-success aborts the operation with a bare 500
carrying that operation's designated error message (plus the raw upstream
body where the code forwards it), no retry (each upstream call appears
once in the trace, and later calls are never attempted) and no partial
data fields; one failing fetch fails all of `/generate-options`. -/
theorem upstream_failure_500
    (oracle : Nat → ImageResp) (sched : List Nat) (tr : TextResp) (ir : ImageResp)
    (sr : StorageResp) (now : Nat) (c d e : Char) (cs ds es : Str) (i : JsVal)
    (ic : Option Bool) :
    ((∃ k, k < 3 ∧ (oracle k).ok = false) → (∀ j, j ∈ sched ↔ j < 3) →
      ∃ k, k < 3 ∧ (oracle k).ok = false ∧
        generateOptions oracle sched (some (c :: cs)) =
          ({ optionsBase 500 with error := some (optionFailMsg k) },
           [Call.imageGen (optionPrompt (c :: cs) 0),
            Call.imageGen (optionPrompt (c :: cs) 1),
            Call.imageGen (optionPrompt (c :: cs) 2)])) ∧
    (tr.ok = false →
      generateFinal tr ir (some (c :: cs)) (some i) =
        ({ finalBase 500 with error := some (str "Text generation failed") },
         [Call.textGen (finalTextPrompt (c :: cs) (conceptAt i))])) ∧
    (tr.ok = true → ir.ok = false →
      generateFinal tr ir (some (c :: cs)) (some i) =
        ({ finalBase 500 with
           error := some (str "Image generation failed")
           details := some ir.body },
         [Call.textGen (finalTextPrompt (c :: cs) (conceptAt i)),
          Call.imageGen (finalImagePrompt (jsOr tr.text (c :: cs)))])) ∧
    (tr.ok = false →
      getRefineOptions tr (some (c :: cs)) (some i) =
        ({ suggestBase 500 with
           error := some (str "Refinement suggestions generation failed") },
         [Call.textGen (refineOptionsPrompt (c :: cs))])) ∧
    (tr.ok = false →
      refineSlide tr ir (some (c :: cs)) (some i) (some (d :: ds)) ic =
        ({ finalBase 500 with
           error := some (str "Refined description generation failed") },
         [Call.textGen (refineTextPrompt (c :: cs) (conceptAt i) (d :: ds))])) ∧
    (tr.ok = true → ir.ok = false →
      refineSlide tr ir (some (c :: cs)) (some i) (some (d :: ds)) ic =
        ({ finalBase 500 with
           error := some (str "Image generation failed")
           details := some ir.body },
         [Call.textGen (refineTextPrompt (c :: cs) (conceptAt i) (d :: ds)),
          Call.imageGen (refineImagePrompt (jsOr tr.text (c :: cs)))])) ∧
    (sr.ok = false →
      upload sr now (some (e :: es)) (some (c :: cs)) =
        ({ uploadBase 500 with
           error := some (str "Upload to InsForge failed")
           details := some sr.errBody },
         [Call.storagePut (objectKey (c :: cs) now)])) := by
  refine ⟨?_, ?_, ?_, ?_, ?_, ?_, ?_⟩
  · rintro ⟨k, hk3, hkok⟩ hsched
    rcases hfind : sched.find? (fun j => !(oracle j).ok) with _ | k2
    · exfalso
      have := List.find?_eq_none.1 hfind k ((hsched k).2 hk3)
      simp [hkok] at this
    · have hp := List.find?_some hfind
      have hm := (hsched k2).1 (List.mem_of_find?_eq_some hfind)
      simp only [Bool.not_eq_true'] at hp
      exact ⟨k2, hm, hp, by simp [generateOptions, hfind]⟩
  · intro h
    simp [generateFinal, h]
  · intro h1 h2
    simp [generateFinal, h1, h2]
  · intro h
    simp [getRefineOptions, h]
  · intro h
    simp [refineSlide, h]
  · intro h1 h2
    simp [refineSlide, h1, h2]
  · intro h
    simp [upload, h]

/-- Witness for C7: a failing second fetch for `/generate-options`, a
failing text call for the three orchestrator endpoints, and a failing
storage call for `/upload`. -/
theorem upstream_failure_500_witness :
    (∃ k, k < 3 ∧
       ((fun j => if j == 1 then (⟨false, str "ERR", none⟩ : ImageResp)
                  else ⟨true, [], none⟩) k).ok = false ∧
       generateOptions
           (fun j => if j == 1 then (⟨false, str "ERR", none⟩ : ImageResp)
                     else ⟨true, [], none⟩) [1, 0, 2] (some ['x']) =
         ({ optionsBase 500 with error := some (optionFailMsg k) },
          [Call.imageGen (optionPrompt ['x'] 0),
           Call.imageGen (optionPrompt ['x'] 1),
           Call.imageGen (optionPrompt ['x'] 2)])) ∧
    generateFinal ⟨false, none⟩ ⟨true, [], none⟩ (some ['x']) (some (JsVal.vnum 0)) =
      ({ finalBase 500 with error := some (str "Text generation failed") },
       [Call.textGen (finalTextPrompt ['x'] (conceptAt (JsVal.vnum 0)))]) ∧
    getRefineOptions ⟨false, none⟩ (some ['x']) (some (JsVal.vnum 0)) =
      ({ suggestBase 500 with
         error := some (str "Refinement suggestions generation failed") },
       [Call.textGen (refineOptionsPrompt ['x'])]) ∧
    refineSlide ⟨false, none⟩ ⟨true, [], none⟩ (some ['x']) (some (JsVal.vnum 0)) (some ['y']) none =
      ({ finalBase 500 with
         error := some (str "Refined description generation failed") },
       [Call.textGen (refineTextPrompt ['x'] (conceptAt (JsVal.vnum 0)) ['y'])]) ∧
    upload ⟨false, none, none, none, none, str "boom"⟩ 7 (some ['A']) (some ['x']) =
      ({ uploadBase 500 with
         error := some (str "Upload to InsForge failed")
         details := some (str "boom") },
       [Call.storagePut (objectKey ['x'] 7)]) :=
  ⟨(upstream_failure_500
      (fun j => if j == 1 then (⟨false, str "ERR", none⟩ : ImageResp)
                else ⟨true, [], none⟩) [1, 0, 2] ⟨false, none⟩ ⟨true, [], none⟩
      ⟨false, none, none, none, none, str "boom"⟩ 7 'x' 'y' 'A' [] [] [] (JsVal.vnum 0) none).1
      ⟨1, by omega, rfl⟩ (by intro j; simp; omega),
   (upstream_failure_500
      (fun j => if j == 1 then (⟨false, str "ERR", none⟩ : ImageResp)
                else ⟨true, [], none⟩) [1, 0, 2] ⟨false, none⟩ ⟨true, [], none⟩
      ⟨false, none, none, none, none, str "boom"⟩ 7 'x' 'y' 'A' [] [] [] (JsVal.vnum 0) none).2.1
      rfl,
   (upstream_failure_500
      (fun j => if j == 1 then (⟨false, str "ERR", none⟩ : ImageResp)
                else ⟨true, [], none⟩) [1, 0, 2] ⟨false, none⟩ ⟨true, [], none⟩
      ⟨false, none, none, none, none, str "boom"⟩ 7 'x' 'y' 'A' [] [] [] (JsVal.vnum 0) none).2.2.2.1
      rfl,
   (upstream_failure_500
      (fun j => if j == 1 then (⟨false, str "ERR", none⟩ : ImageResp)
                else ⟨true, [], none⟩) [1, 0, 2] ⟨false, none⟩ ⟨true, [], none⟩
      ⟨false, none, none, none, none, str "boom"⟩ 7 'x' 'y' 'A' [] [] [] (JsVal.vnum 0) none).2.2.2.2.1
      rfl,
   (upstream_failure_500
      (fun j => if j == 1 then (⟨false, str "ERR", none⟩ : ImageResp)
                else ⟨true, [], none⟩) [1, 0, 2] ⟨false, none⟩ ⟨true, [], none⟩
      ⟨false, none, none, none, none, str "boom"⟩ 7 'x' 'y' 'A' [] [] [] (JsVal.vnum 0) none).2.2.2.2.2.2
      rfl⟩

/-! Claim C8. -/

/-- C8: the `/refine-slide` text prompt embeds the full refinement
instruction and a "• Refinement:" line holding the instruction truncated
to 30 characters, and every successful response carries
`isRefinement: true`. -/
theorem refineSlide_refinement_marking
    (tr : TextResp) (ir : ImageResp) (c d : Char) (cs ds : Str) (i : JsVal)
    (ic : Option Bool) (pr : Pred) (prs : List Pred)
    (htr : tr.ok = true) (hir : ir.ok = true)
    (hpred : ir.predictions = some (pr :: prs)) :
    ((refineSlide tr ir (some (c :: cs)) (some i) (some (d :: ds)) ic).2.head? =
       some (Call.textGen (refineTextPrompt (c :: cs) (conceptAt i) (d :: ds)))) ∧
    (∃ pre post, refineTextPrompt (c :: cs) (conceptAt i) (d :: ds) =
       pre ++ (d :: ds) ++ post) ∧
    (∃ pre post, refineTextPrompt (c :: cs) (conceptAt i) (d :: ds) =
       pre ++ (str "• Refinement: " ++ (d :: ds).take 30 ++ str "...") ++ post) ∧
    (((d :: ds).take 30).length ≤ 30) ∧ ((d :: ds).take 30 <+: (d :: ds)) ∧
    ((refineSlide tr ir (some (c :: cs)) (some i) (some (d :: ds)) ic).1.isRefinement =
       some true) ∧
    ((refineSlide tr ir (some (c :: cs)) (some i) (some (d :: ds)) ic).1.status = 200) := by
  refine ⟨?_, ?_, ?_, List.length_take_le _ _, List.take_prefix _ _, ?_, ?_⟩
  · simp [refineSlide, htr, hir, hpred]
  · exact ⟨str "You are a professional business presentation designer. Create a REFINED business pitch slide.\n\nOriginal idea: \"" ++ (c :: cs) ++
        str "\"\nDesign style: " ++ conceptAt i ++ str "\nREFINEMENT: ",
      str "\n\nFirst, provide a concise slide concept summary (for display to user) in this exact format:\nSLIDE CONCEPT:\n• Headline: [short, catchy title]\n• Style: " ++ conceptAt i ++
        str "\n" ++ (str "• Refinement: " ++ (d :: ds).take 30 ++ str "...") ++
        str "\n• Key Points: [3 short bullet points max 6 words each]\n\nThen, describe the visual layout for image generation incorporating the refinement. Be specific about typography, colors, layout, and visual elements for creating an improved investor-ready pitch slide.",
      by simp [refineTextPrompt, List.append_assoc]⟩
  · exact ⟨str "You are a professional business presentation designer. Create a REFINED business pitch slide.\n\nOriginal idea: \"" ++ (c :: cs) ++
        str "\"\nDesign style: " ++ conceptAt i ++ str "\nREFINEMENT: " ++ (d :: ds) ++
        str "\n\nFirst, provide a concise slide concept summary (for display to user) in this exact format:\nSLIDE CONCEPT:\n• Headline: [short, catchy title]\n• Style: " ++ conceptAt i ++
        str "\n",
      str "\n• Key Points: [3 short bullet points max 6 words each]\n\nThen, describe the visual layout for image generation incorporating the refinement. Be specific about typography, colors, layout, and visual elements for creating an improved investor-ready pitch slide.",
      by simp [refineTextPrompt, List.append_assoc]⟩
  · simp [refineSlide, htr, hir, hpred]
  · simp [refineSlide, htr, hir, hpred, finalBase]

/-- Witness for C8 at a concrete successful refinement request. -/
theorem refineSlide_refinement_marking_witness :
    ((refineSlide ⟨true, some (str "desc")⟩ ⟨true, [], some [⟨some (str "IMG")⟩]⟩
        (some ['a']) (some (JsVal.vnum 2)) (some ['b']) (some true)).2.head? =
       some (Call.textGen (refineTextPrompt ['a'] (conceptAt (JsVal.vnum 2)) ['b']))) ∧
    (∃ pre post, refineTextPrompt ['a'] (conceptAt (JsVal.vnum 2)) ['b'] = pre ++ ['b'] ++ post) ∧
    (∃ pre post, refineTextPrompt ['a'] (conceptAt (JsVal.vnum 2)) ['b'] =
       pre ++ (str "• Refinement: " ++ (['b'] : Str).take 30 ++ str "...") ++ post) ∧
    (((['b'] : Str).take 30).length ≤ 30) ∧ ((['b'] : Str).take 30 <+: (['b'] : Str)) ∧
    ((refineSlide ⟨true, some (str "desc")⟩ ⟨true, [], some [⟨some (str "IMG")⟩]⟩
        (some ['a']) (some (JsVal.vnum 2)) (some ['b']) (some true)).1.isRefinement = some true) ∧
    ((refineSlide ⟨true, some (str "desc")⟩ ⟨true, [], some [⟨some (str "IMG")⟩]⟩
        (some ['a']) (some (JsVal.vnum 2)) (some ['b']) (some true)).1.status = 200) :=
  refineSlide_refinement_marking ⟨true, some (str "desc")⟩
    ⟨true, [], some [⟨some (str "IMG")⟩]⟩ 'a' 'b' [] [] (JsVal.vnum 2) (some true)
    ⟨some (str "IMG")⟩ [] rfl rfl rfl

/-! Claim C9. -/

